import Mathlib

/-!
Verification of the `demo` packaging manifest (`setup.py`).

The script is embedded as a function of the interpreter state: it reads
`sys.version_info.major`, exits with an upgrade message when that major
version is below 3, and otherwise performs a single `setup(...)` call
whose keyword arguments are the literal metadata of the manifest.
-/

/-- Keyword arguments of the `setup(...)` call, one field per keyword in the
source manifest. -/
structure SetupArgs where
  name : String
  version : String
  description : String
  py_modules : List String
  include_package_data : Bool
  install_requires : List String
  extras_require : List (String × List String)
  classifiers : List String
  entry_points : List (String × List String)
deriving Repr, DecidableEq

/-- Literal metadata of the `setup(...)` call in `setup.py`. -/
def demoSetupArgs : SetupArgs :=
  { name := "demo"
    version := "0.6.1"
    description := "dmenv demo"
    py_modules := ["demo"]
    include_package_data := true
    install_requires := ["path.py"]
    extras_require := [("dev", ["pytest"])]
    classifiers :=
      [ "Programming Language :: Python :: 3.3"
      , "Programming Language :: Python :: 3.4"
      , "Programming Language :: Python :: 3.5"
      , "Programming Language :: Python :: 3.6" ]
    entry_points := [("console_scripts", ["demo = demo:main"])] }

/-- State of the executing Python interpreter visible to the script:
`sys.version_info.major` and the ambient process environment.  The script
never reads the environment; it is carried to express that the outcome is
independent of it. -/
structure PyState where
  versionInfoMajor : Nat
  environ : List (String × String)
deriving Repr, DecidableEq

/-- Outcome of running the script: either `sys.exit(message)` fired, or the
script ran to completion having performed the recorded list of `setup`
calls. -/
inductive ScriptOutcome where
  | exited (message : String)
  | completed (calls : List SetupArgs)
deriving Repr, DecidableEq

/-- Whether the outcome is an early `sys.exit`. -/
def ScriptOutcome.isExited : ScriptOutcome → Bool
  | .exited _ => true
  | .completed _ => false

/-- The `setup` calls performed during the run: none when the script exited
early, the recorded calls otherwise. -/
def ScriptOutcome.setupCalls : ScriptOutcome → List SetupArgs
  | .exited _ => []
  | .completed cs => cs

/-- Embedding of the module body of `setup.py`: the version guard followed by
the single `setup(...)` call. -/
def runSetupScript (st : PyState) : ScriptOutcome :=
  if st.versionInfoMajor < 3 then
    ScriptOutcome.exited "Error: Please upgrade to Python3"
  else
    ScriptOutcome.completed [demoSetupArgs]

/-- Characters of `l` strictly before the first occurrence of `t`
(all of `l` when `t` does not occur). -/
def takeUntilChar (t : Char) : List Char → List Char
  | [] => []
  | c :: cs => if c == t then [] else c :: takeUntilChar t cs

/-- Characters of `l` strictly after the first occurrence of `t`
(empty when `t` does not occur). -/
def dropPastChar (t : Char) : List Char → List Char
  | [] => []
  | c :: cs => if c == t then cs else dropPastChar t cs

/-- Remove leading and trailing space characters. -/
def trimSpaces (l : List Char) : List Char :=
  ((l.dropWhile (· == ' ')).reverse.dropWhile (· == ' ')).reverse

/-- Command name of an entry-point specification `name = module:attr`:
the text before the `=`, with surrounding spaces stripped. -/
def entryPointCommandName (spec : String) : String :=
  String.mk (trimSpaces (takeUntilChar '=' spec.data))

/-- Target module of an entry-point specification `name = module:attr`:
the text between `=` and `:`, with surrounding spaces stripped. -/
def entryPointModule (spec : String) : String :=
  String.mk (trimSpaces (takeUntilChar ':' (dropPastChar '=' spec.data)))

/-- Target callable of an entry-point specification `name = module:attr`:
the text after the `:`, with surrounding spaces stripped. -/
def entryPointAttr (spec : String) : String :=
  String.mk (trimSpaces (dropPastChar ':' (dropPastChar '=' spec.data)))

/-- Entry-point specifications registered under the `console_scripts` group
of the manifest's `entry_points` mapping. -/
def consoleScripts (a : SetupArgs) : List String :=
  (a.entry_points.lookup "console_scripts").getD []

/-- Whether the character list `p` occurs at the start of `l`. -/
def charsLeadWith (p : List Char) (l : List Char) : Bool :=
  match p, l with
  | [], _ => true
  | _ :: _, [] => false
  | a :: ps, c :: cs => a == c && charsLeadWith ps cs

/-- A classifier names a concrete Python 3 minor version when it starts with
the Python 3 trove prefix followed by a dot-separated minor number. -/
def namesPython3Minor (c : String) : Bool :=
  charsLeadWith "Programming Language :: Python :: 3.".data c.data

/-- A classifier declares Python 2 compatibility when it starts with the
Python 2 trove text. -/
def declaresPython2 (c : String) : Bool :=
  charsLeadWith "Programming Language :: Python :: 2".data c.data

/-- C1: under an interpreter whose major version is less than 3, the script
terminates immediately via `sys.exit` with the upgrade message, and no
`setup` call (package-metadata construction) ever happens. -/
theorem script_exits_on_python2 (st : PyState) (h : st.versionInfoMajor < 3) :
    runSetupScript st = ScriptOutcome.exited "Error: Please upgrade to Python3" ∧
    (runSetupScript st).setupCalls = [] := by
  unfold runSetupScript
  rw [if_pos h]
  exact ⟨rfl, rfl⟩

/-- Witness for C1 at major version 2. -/
theorem script_exits_on_python2_witness :
    ({ versionInfoMajor := 2, environ := [] } : PyState).versionInfoMajor < 3 ∧
    (runSetupScript { versionInfoMajor := 2, environ := [] } =
        ScriptOutcome.exited "Error: Please upgrade to Python3" ∧
      (runSetupScript { versionInfoMajor := 2, environ := [] }).setupCalls = []) :=
  ⟨by decide, script_exits_on_python2 { versionInfoMajor := 2, environ := [] } (by decide)⟩

/-- C2: under an interpreter whose major version is 3 or greater, the script
does not exit early and invokes `setup` exactly once. -/
theorem script_runs_setup_on_python3 (st : PyState) (h : 3 ≤ st.versionInfoMajor) :
    (runSetupScript st).isExited = false ∧
    (runSetupScript st).setupCalls.length = 1 := by
  unfold runSetupScript
  rw [if_neg (Nat.not_lt.mpr h)]
  exact ⟨rfl, rfl⟩

/-- Witness for C2 at major version 3. -/
theorem script_runs_setup_on_python3_witness :
    3 ≤ ({ versionInfoMajor := 3, environ := [] } : PyState).versionInfoMajor ∧
    ((runSetupScript { versionInfoMajor := 3, environ := [] }).isExited = false ∧
      (runSetupScript { versionInfoMajor := 3, environ := [] }).setupCalls.length = 1) :=
  ⟨by decide, script_runs_setup_on_python3 { versionInfoMajor := 3, environ := [] } (by decide)⟩

/-- C3: the manifest declares exactly one runtime dependency, and the extras
mapping has the single key `dev` whose dependency list has length one. -/
theorem one_runtime_and_one_dev_dependency :
    demoSetupArgs.install_requires.length = 1 ∧
    demoSetupArgs.extras_require.map Prod.fst = ["dev"] ∧
    demoSetupArgs.extras_require.map (fun p => p.2.length) = [1] := by
  decide

/-- C4: the manifest registers exactly one console-script entry point, whose
command name is `demo`. -/
theorem one_console_script_named_demo :
    (consoleScripts demoSetupArgs).length = 1 ∧
    (consoleScripts demoSetupArgs).map entryPointCommandName = ["demo"] := by
  decide

/-- C5: the sole console-script specification string is exactly
`demo = demo:main`, mapping the command `demo` to the callable `main`
in the module `demo`. -/
theorem console_script_maps_demo_to_main :
    consoleScripts demoSetupArgs = ["demo = demo:main"] ∧
    entryPointCommandName "demo = demo:main" = "demo" ∧
    entryPointModule "demo = demo:main" = "demo" ∧
    entryPointAttr "demo = demo:main" = "main" := by
  decide

/-- C6: the package identity declared in the manifest is name `demo` and
version `0.6.1`. -/
theorem package_identity :
    demoSetupArgs.name = "demo" ∧ demoSetupArgs.version = "0.6.1" := by
  decide

/-- C7: every compatibility classifier names a Python 3 minor version, and no
classifier declares Python 2 compatibility. -/
theorem classifiers_cover_python3_only :
    demoSetupArgs.classifiers.all namesPython3Minor = true ∧
    demoSetupArgs.classifiers.any declaresPython2 = false := by
  decide

/-- C8: the `dev` extras group consists of exactly one library, and no library
of that group appears in the runtime dependency list. -/
theorem dev_extra_not_in_runtime_deps :
    (demoSetupArgs.extras_require.lookup "dev").getD [] = ["pytest"] ∧
    ((demoSetupArgs.extras_require.lookup "dev").getD []).all
      (fun lib => !(demoSetupArgs.install_requires.contains lib)) = true := by
  decide

/-- C9: the script exits early exactly when the interpreter's major version is
below 3, and whenever it exits early no `setup` call was performed. -/
theorem script_exit_characterization (st : PyState) :
    ((runSetupScript st).isExited = true ↔ st.versionInfoMajor < 3) ∧
    ((runSetupScript st).isExited = true → (runSetupScript st).setupCalls = []) := by
  unfold runSetupScript
  by_cases h : st.versionInfoMajor < 3
  · rw [if_pos h]
    exact ⟨⟨fun _ => h, fun _ => rfl⟩, fun _ => rfl⟩
  · rw [if_neg h]
    exact ⟨⟨fun hc => by simp [ScriptOutcome.isExited] at hc, fun hlt => absurd hlt h⟩,
      fun hc => by simp [ScriptOutcome.isExited] at hc⟩

/-- Witness for C9 at major version 2. -/
theorem script_exit_characterization_witness :
    ((runSetupScript { versionInfoMajor := 2, environ := [] }).isExited = true ↔
        ({ versionInfoMajor := 2, environ := [] } : PyState).versionInfoMajor < 3) ∧
    ((runSetupScript { versionInfoMajor := 2, environ := [] }).isExited = true →
      (runSetupScript { versionInfoMajor := 2, environ := [] }).setupCalls = []) :=
  script_exit_characterization { versionInfoMajor := 2, environ := [] }

/-- C10: the metadata handed to `setup` is deterministic: any two executions
under major version 3 or greater perform the same single `setup` call with the
literal manifest arguments, independent of the rest of the interpreter state. -/
theorem setup_metadata_deterministic (s1 s2 : PyState)
    (h1 : 3 ≤ s1.versionInfoMajor) (h2 : 3 ≤ s2.versionInfoMajor) :
    (runSetupScript s1).setupCalls = (runSetupScript s2).setupCalls ∧
    (runSetupScript s1).setupCalls = [demoSetupArgs] := by
  unfold runSetupScript
  rw [if_neg (Nat.not_lt.mpr h1), if_neg (Nat.not_lt.mpr h2)]
  exact ⟨rfl, rfl⟩

/-- Witness for C10 at two states differing in major version and in
environment. -/
theorem setup_metadata_deterministic_witness :
    3 ≤ ({ versionInfoMajor := 3, environ := [] } : PyState).versionInfoMajor ∧
    3 ≤ ({ versionInfoMajor := 4, environ := [("HOME", "/tmp")] } : PyState).versionInfoMajor ∧
    ((runSetupScript { versionInfoMajor := 3, environ := [] }).setupCalls =
        (runSetupScript { versionInfoMajor := 4, environ := [("HOME", "/tmp")] }).setupCalls ∧
      (runSetupScript { versionInfoMajor := 3, environ := [] }).setupCalls = [demoSetupArgs]) :=
  ⟨by decide, by decide,
    setup_metadata_deterministic
      { versionInfoMajor := 3, environ := [] }
      { versionInfoMajor := 4, environ := [("HOME", "/tmp")] }
      (by decide) (by decide)⟩
